import Mathlib

set_option maxRecDepth 8000

/-!
Verification of `paasta_tools/oom_logger.py`.

The file embeds the OOM-logger pipeline: the regular expressions and the
stdin scanner (`capture_oom_events_from_stdin`), the environment-map
extraction (`get_container_env_as_dict`), the enrichment of an occurrence
into a `LogLine`, and the main loop with its two container backends and
three sinks.  Python regular expressions are modelled by a small
backtracking matcher with greedy semantics over `List Char`; character
classes are modelled over ASCII.  Library calls whose behaviour is not part
of the repository (the docker client, the containerd gRPC stub, the
UTF-8/JSON decoding of the spec payload, and the three sinks) enter the
main-loop model as oracle parameters recording whether each call succeeds
or raises.
-/

/-! ### Character classes of the Python patterns (ASCII model) -/

def isSpacePy (c : Char) : Bool :=
  c == ' ' || c == '\t' || c == '\n' || c == '\x0b' || c == '\x0c' || c == '\r'

def isDigitPy (c : Char) : Bool :=
  48 ≤ c.toNat && c.toNat ≤ 57

def isAlphaPy (c : Char) : Bool :=
  (65 ≤ c.toNat && c.toNat ≤ 90) || (97 ≤ c.toNat && c.toNat ≤ 122)

def isWordPy (c : Char) : Bool :=
  isAlphaPy c || isDigitPy c || c == '_'

def isHostPy (c : Char) : Bool :=
  isAlphaPy c || isDigitPy c || c == '-'

def isDotPy (c : Char) : Bool :=
  c != '\n'

def isDashWordPy (c : Char) : Bool :=
  c == '-' || isWordPy c

def isNotCommaPy (c : Char) : Bool :=
  c != ','

/-! ### A backtracking regex matcher with Python `re` semantics

Greedy, leftmost-backtracking matching with numbered capture groups, in
continuation-passing style.  `eol` is the `$` anchor (end of input or just
before a trailing newline).  All starred subpatterns of the oom-logger
patterns are single-character classes, so repetition constructors are
specialised to character predicates. -/

abbrev Caps := List (Nat × List Char)

inductive RE
  | eps
  | chr (p : Char → Bool)
  | cat (r1 r2 : RE)
  | starCh (p : Char → Bool)
  | plusCh (p : Char → Bool)
  | repCh (n : Nat) (p : Char → Bool)
  | opt (r : RE)
  | grp (i : Nat) (r : RE)
  | eol

def optOr (a : Option Caps) (b : Unit → Option Caps) : Option Caps :=
  match a with
  | some x => some x
  | none => b ()

/-- Greedy Kleene star of a character class, in CPS. -/
def starK (p : Char → Bool) : List Char → Caps → (List Char → Caps → Option Caps) → Option Caps
  | [], caps, k => k [] caps
  | c :: s, caps, k =>
    if p c then optOr (starK p s caps k) (fun _ => k (c :: s) caps)
    else k (c :: s) caps

/-- Exactly `n` characters of a class, in CPS. -/
def repK : Nat → (Char → Bool) → List Char → Caps → (List Char → Caps → Option Caps) → Option Caps
  | 0, _, s, caps, k => k s caps
  | _ + 1, _, [], _, _ => none
  | n + 1, p, c :: s, caps, k =>
    if p c then repK n p s caps k else none

def matchR : RE → List Char → Caps → (List Char → Caps → Option Caps) → Option Caps
  | .eps, s, caps, k => k s caps
  | .chr p, s, caps, k =>
    match s with
    | [] => none
    | c :: s' => if p c then k s' caps else none
  | .cat r1 r2, s, caps, k =>
    matchR r1 s caps (fun s' caps' => matchR r2 s' caps' k)
  | .starCh p, s, caps, k => starK p s caps k
  | .plusCh p, s, caps, k =>
    match s with
    | [] => none
    | c :: s' => if p c then starK p s' caps k else none
  | .repCh n p, s, caps, k => repK n p s caps k
  | .opt r, s, caps, k =>
    optOr (matchR r s caps k) (fun _ => k s caps)
  | .grp i r, s, caps, k =>
    matchR r s caps (fun s' caps' => k s' ((i, s.take (s.length - s'.length)) :: caps'))
  | .eol, s, caps, k =>
    match s with
    | [] => k [] caps
    | [c] => if c = '\n' then k [c] caps else none
    | _ => none

/-- A literal string as a regex. -/
def rStr (s : String) : RE :=
  s.data.foldr (fun c r => RE.cat (RE.chr (fun x => x == c)) r) RE.eps

/-- Concatenation of a pattern list. -/
def cats (l : List RE) : RE :=
  l.foldr RE.cat RE.eps

/-- `re.search` of a `^`-anchored pattern (all oom-logger patterns are
`^`-anchored, so searching is matching at position 0). -/
def reSearchAnchored (r : RE) (s : String) : Option Caps :=
  matchR r s.data [] (fun _ caps => some caps)

def reGroup (caps : Caps) (i : Nat) : List Char :=
  match caps.find? (fun p => p.1 == i) with
  | some p => p.2
  | none => []

/-- Python `int` on a digits-only string. -/
def pyIntOfDigits (l : List Char) : Nat :=
  l.foldl (fun a c => a * 10 + (c.toNat - 48)) 0

/-! ### The patterns of `capture_oom_events_from_stdin` -/

/-- `^\d+\s[a-zA-Z0-9\-]+\s.*\]\s(.+)\sinvoked\soom-killer:` -/
def process_name_regex : RE := cats
  [ .plusCh isDigitPy, .chr isSpacePy, .plusCh isHostPy, .chr isSpacePy,
    .starCh isDotPy, .chr (fun x => x == ']'), .chr isSpacePy,
    .grp 1 (.plusCh isDotPy), .chr isSpacePy,
    rStr "invoked", .chr isSpacePy, rStr "oom-killer:" ]

/-- The shared head `^(\d+)\s([a-zA-Z0-9\-]+)\s` of the five kill patterns. -/
def killHead (rest : RE) : RE :=
  .cat (.grp 1 (.plusCh isDigitPy))
    (.cat (.chr isSpacePy)
      (.cat (.grp 2 (.plusCh isHostPy))
        (.cat (.chr isSpacePy) rest)))

/-- `^(\d+)\s([a-zA-Z0-9\-]+)\s.*Task in /docker/(\w{12})\w+ killed as a` -/
def oom_regex_docker : RE := killHead (cats
  [ .starCh isDotPy, rStr "Task in /docker/",
    .grp 3 (.repCh 12 isWordPy), .plusCh isWordPy, rStr " killed as a" ])

/-- `^(\d+)\s([a-zA-Z0-9\-]+)\s.*Task\sin\s/kubepods/(?:[a-zA-Z]+/)?pod[-\w]+/(\w{12}(?:\w{52})?)\w*\skilled\sas\sa*` -/
def oom_regex_kubernetes : RE := killHead (cats
  [ .starCh isDotPy, rStr "Task", .chr isSpacePy, rStr "in", .chr isSpacePy,
    rStr "/kubepods/", .opt (.cat (.plusCh isAlphaPy) (rStr "/")),
    rStr "pod", .plusCh isDashWordPy, rStr "/",
    .grp 3 (.cat (.repCh 12 isWordPy) (.opt (.repCh 52 isWordPy))),
    .starCh isWordPy, .chr isSpacePy, rStr "killed", .chr isSpacePy,
    rStr "as", .chr isSpacePy, .starCh (fun c => c == 'a') ])

/-- `^(\d+)\s([a-zA-Z0-9\-]+)\s.*oom-kill:.*task_memcg=/system\.slice/.*nerdctl-(\w{64})\w*\.scope,.*$` -/
def oom_regex_kubernetes_containerd_systemd_cgroup : RE := killHead (cats
  [ .starCh isDotPy, rStr "oom-kill:", .starCh isDotPy,
    rStr "task_memcg=/system.slice/", .starCh isDotPy, rStr "nerdctl-",
    .grp 3 (.repCh 64 isWordPy), .starCh isWordPy, rStr ".scope,",
    .starCh isDotPy, .eol ])

/-- `^(\d+)\s([a-zA-Z0-9\-]+)\s.*oom-kill:.*task_memcg=/kubepods/(?:[a-zA-Z]+/)?pod[-\w]+/(\w{12}(?:\w{52})?)\w*,.*$` -/
def oom_regex_kubernetes_structured : RE := killHead (cats
  [ .starCh isDotPy, rStr "oom-kill:", .starCh isDotPy,
    rStr "task_memcg=/kubepods/", .opt (.cat (.plusCh isAlphaPy) (rStr "/")),
    rStr "pod", .plusCh isDashWordPy, rStr "/",
    .grp 3 (.cat (.repCh 12 isWordPy) (.opt (.repCh 52 isWordPy))),
    .starCh isWordPy, rStr ",", .starCh isDotPy, .eol ])

/-- `^(\d+)\s([a-zA-Z0-9\-]+)\s.*oom-kill:.*task_memcg=/kubepods\.slice/[^,]+docker-(\w{12})\w+\.scope,.*$` -/
def oom_regex_kubernetes_systemd_cgroup : RE := killHead (cats
  [ .starCh isDotPy, rStr "oom-kill:", .starCh isDotPy,
    rStr "task_memcg=/kubepods.slice/", .plusCh isNotCommaPy, rStr "docker-",
    .grp 3 (.repCh 12 isWordPy), .plusCh isWordPy, rStr ".scope,",
    .starCh isDotPy, .eol ])

/-- The ordered recognizer list of the source. -/
def event_detail_regexes : List RE :=
  [ oom_regex_docker,
    oom_regex_kubernetes,
    oom_regex_kubernetes_structured,
    oom_regex_kubernetes_systemd_cgroup,
    oom_regex_kubernetes_containerd_systemd_cgroup ]

/-! ### The stdin scanner -/

structure Occurrence where
  timestamp : Nat
  hostname : String
  container_id : String
  process_name : String
deriving DecidableEq

/-- The `for expression in event_detail_regexes` loop with its `break`. -/
def firstKillMatch : List RE → String → Option Caps
  | [], _ => none
  | r :: rs, s =>
    match reSearchAnchored r s with
    | some caps => some caps
    | none => firstKillMatch rs s

/-- The process-name slot after the `process_name_regex` check of one line. -/
def nameAfter (process_name : String) (syslog : String) : String :=
  match reSearchAnchored process_name_regex syslog with
  | some r => String.mk (reGroup r 1)
  | none => process_name

/-- One iteration of the scanner body on one line: the occurrences yielded
(at most one) and the process-name slot afterwards. -/
def scanStep (process_name : String) (syslog : String) : List Occurrence × String :=
  match firstKillMatch event_detail_regexes syslog with
  | some r =>
    ([⟨pyIntOfDigits (reGroup r 1), String.mk (reGroup r 2), String.mk (reGroup r 3),
       nameAfter process_name syslog⟩], "")
  | none => ([], nameAfter process_name syslog)

/-- The scanner loop from a given process-name slot over the remaining
lines delivered by `readline` (an empty string ends the loop). -/
def scanFrom (process_name : String) : List String → List Occurrence
  | [] => []
  | syslog :: rest =>
    if syslog = "" then []
    else
      let st := scanStep process_name syslog
      st.1 ++ scanFrom st.2 rest

def capture_oom_events_from_stdin (lines : List String) : List Occurrence :=
  scanFrom "" lines

/-! ### `get_container_env_as_dict` -/

inductive PyErr
  | apiError
  | unicodeDecodeError
  | jsonDecodeError
  | attributeError
  | generic (n : Nat)
deriving DecidableEq

/-- A config section of an inspect payload; `env` is `none` when the
`env`/`Env` key is absent. -/
structure ContainerConfig where
  env : Option (List String)
deriving DecidableEq

/-- An inspect payload.  A field is `none` when the corresponding key
(`process` for containerd, `Config` for the classic engine) is absent or
maps to null — both make Python `dict.get` return `None`. -/
structure ContainerInspect where
  process : Option ContainerConfig
  Config : Option ContainerConfig
deriving DecidableEq

/-- Python `str.partition("=")` restricted to the pieces used: the part
before the first `=` and the part after it (both empty-tolerant; a value
may itself contain `=`). -/
def partitionEq : List Char → List Char × List Char
  | [] => ([], [])
  | c :: t =>
    if c = '=' then ([], t)
    else
      let nv := partitionEq t
      (c :: nv.1, nv.2)

/-- Python dict assignment `d[k] = v`. -/
def dictInsert (d : List (String × String)) (k v : String) : List (String × String) :=
  if d.any (fun p => p.1 == k) then d.map (fun p => if p.1 == k then (k, v) else p)
  else d ++ [(k, v)]

/-- `get_container_env_as_dict`.  When the config section is `None`,
Python evaluates `config.get(...)` before reaching the
`if config is not None` guard, so the call raises `AttributeError`;
the `Except.error` branch models that raise. -/
def get_container_env_as_dict (is_cri_containerd : Bool)
    (container_inspect : ContainerInspect) : Except PyErr (List (String × String)) :=
  let config := if is_cri_containerd then container_inspect.process
                else container_inspect.Config
  match config with
  | none => .error .attributeError
  | some c =>
    let env := c.env.getD []
    .ok (env.foldl (fun acc i =>
      let nv := partitionEq i.data
      dictInsert acc (String.mk nv.1) (String.mk nv.2)) [])

/-! ### Enrichment into a `LogLine` -/

/-- Python `d.get(k, default)` on the environment map. -/
def pyDictGet (d : List (String × String)) (k v0 : String) : String :=
  match d.find? (fun p => p.1 == k) with
  | some p => p.2
  | none => v0

structure LogLine where
  timestamp : Nat
  hostname : String
  container_id : String
  cluster : String
  service : String
  instance_name : String  -- `instance` in the source (a Lean keyword)
  process_name : String
  mesos_container_id : String
  mem_limit : String
deriving DecidableEq

/-- The enrichment block of `main` (lines 286-301 of the source). -/
def buildLogLine (cluster : String) (o : Occurrence)
    (env_vars : List (String × String)) : LogLine :=
  { timestamp := o.timestamp
    hostname := o.hostname
    container_id := o.container_id
    cluster := cluster
    service := pyDictGet env_vars "PAASTA_SERVICE" "unknown"
    instance_name := pyDictGet env_vars "PAASTA_INSTANCE" "unknown"
    process_name := o.process_name
    mesos_container_id := pyDictGet env_vars "MESOS_CONTAINER_NAME" "mesos-null"
    mem_limit := pyDictGet env_vars "PAASTA_RESOURCE_MEM" "unknown" }

/-! ### The main loop

The backends and sinks are oracles: `containerd_get` models the gRPC
`Get` (`Except.error ()` is a raised `grpc.RpcError`), `decode_spec`
models `container_info.spec.value.decode("utf-8")` followed by
`json.loads` (its error is a raised decode failure), `docker_inspect`
models `client.inspect_container` (which may raise `APIError` or some
other exception), and the `*_fail` oracles tell whether each sink call
raises.  `mainLoop` returns the trace of per-occurrence outcomes and the
uncaught exception that terminated the loop, if any. -/

inductive Sink
  | clog
  | paasta
  | sfx
deriving DecidableEq

/-- The three sink statements of `main` (lines 302-304 of the source):
plain sequential calls, so an exception in one aborts the rest.  Returns
the sinks actually invoked, in order, and the first raised exception. -/
def dispatchSinks (clogErr paastaErr sfxErr : Option PyErr) : List Sink × Option PyErr :=
  match clogErr with
  | some e => ([.clog], some e)
  | none =>
    match paastaErr with
    | some e => ([.clog, .paasta], some e)
    | none =>
      match sfxErr with
      | some e => ([.clog, .paasta, .sfx], some e)
      | none => ([.clog, .paasta, .sfx], none)

structure MainEnv where
  containerd : Bool
  cluster : String
  containerd_get : String → Except Unit Nat
  decode_spec : Nat → Except PyErr ContainerInspect
  docker_inspect : String → Except PyErr ContainerInspect
  clog_fail : LogLine → Option PyErr
  paasta_fail : LogLine → Option PyErr
  sfx_fail : String → String → String → Option PyErr

/-- The container-lookup block of one loop iteration (lines 271-285 of
the source).  `.ok none` is the `continue` of a caught exception;
`.error e` is an uncaught exception escaping the iteration. -/
def resolveInspect (env : MainEnv) (cid : String) : Except PyErr (Option ContainerInspect) :=
  if env.containerd then
    match env.containerd_get cid with
    | .error _ => .ok none
    | .ok payload =>
      match env.decode_spec payload with
      | .error e => .error e
      | .ok ci => .ok (some ci)
  else
    match env.docker_inspect cid with
    | .error .apiError => .ok none
    | .error e => .error e
    | .ok ci => .ok (some ci)

inductive TraceEntry
  | skipped (o : Occurrence)
  | dispatched (o : Occurrence) (ll : LogLine) (sinks : List Sink)
deriving DecidableEq

/-- The `for ... in capture_oom_events_from_stdin()` loop of `main` over
an occurrence list: trace of outcomes plus the uncaught exception, if
any, that terminated the stream. -/
def mainLoop (env : MainEnv) : List Occurrence → List TraceEntry × Option PyErr
  | [] => ([], none)
  | o :: os =>
    match resolveInspect env o.container_id with
    | .error e => ([], some e)
    | .ok none =>
      let t := mainLoop env os
      (.skipped o :: t.1, t.2)
    | .ok (some ci) =>
      match get_container_env_as_dict env.containerd ci with
      | .error e => ([], some e)
      | .ok ev =>
        let ll := buildLogLine env.cluster o ev
        let de := dispatchSinks (env.clog_fail ll) (env.paasta_fail ll)
          (env.sfx_fail ll.service ll.instance_name env.cluster)
        match de.2 with
        | some e => ([.dispatched o ll de.1], some e)
        | none =>
          let t := mainLoop env os
          (.dispatched o ll de.1 :: t.1, t.2)

/-! ### Whitespace-separated fields of an input line -/

/-- The second whitespace-separated field of a line (whitespace in the
sense of the `\s` class). -/
def secondField (s : List Char) : List Char :=
  ((((s.dropWhile isSpacePy).dropWhile (fun c => !isSpacePy c)).dropWhile
      isSpacePy).takeWhile (fun c => !isSpacePy c))

/-! ### Helper lemmas on the environment map -/

theorem find?_key_none (k : String) (ev : List (String × String))
    (h : k ∉ ev.map Prod.fst) :
    ev.find? (fun p => p.1 == k) = none := by
  rw [List.find?_eq_none]
  intro x hx hbeq
  exact h (List.mem_map.mpr ⟨x, hx, eq_of_beq hbeq⟩)

theorem find?_key_first (k v : String) :
    ∀ l1 l2 : List (String × String), k ∉ l1.map Prod.fst →
      (l1 ++ (k, v) :: l2).find? (fun p => p.1 == k) = some (k, v) := by
  intro l1
  induction l1 with
  | nil =>
    intro l2 _
    simp only [List.nil_append]
    rw [List.find?_cons_of_pos _ (by simp)]
  | cons a l ih =>
    intro l2 h
    simp only [List.map_cons, List.mem_cons, not_or] at h
    simp only [List.cons_append]
    rw [List.find?_cons_of_neg _ (by simp only [beq_iff_eq]; exact fun e => h.1 e.symm)]
    exact ih l2 h.2

theorem pyDictGet_not_mem (ev : List (String × String)) (k d : String)
    (h : k ∉ ev.map Prod.fst) : pyDictGet ev k d = d := by
  unfold pyDictGet
  rw [find?_key_none k ev h]

theorem pyDictGet_first (l1 l2 : List (String × String)) (k v d : String)
    (h : k ∉ l1.map Prod.fst) : pyDictGet (l1 ++ (k, v) :: l2) k d = v := by
  unfold pyDictGet
  rw [find?_key_first k v l1 l2 h]

/-! ### Claims -/

/-- C6: the single classic-engine line yields exactly the occurrence
`(1700000000, "nodeA", "abcdef012345", "")`, and enriching it with the
environment map `PAASTA_SERVICE=web, PAASTA_INSTANCE=main` produces a log
line with service `web`, instance `main`, mem_limit `unknown` and
mesos_container_id `mesos-null`. -/
theorem c6_end_to_end :
    capture_oom_events_from_stdin
      ["1700000000 nodeA kernel: Task in /docker/abcdef012345abcdef killed as a result of limit of /docker/abcdef012345abcdef"]
      = [⟨1700000000, "nodeA", "abcdef012345", ""⟩]
    ∧ ∀ cluster : String,
      (buildLogLine cluster ⟨1700000000, "nodeA", "abcdef012345", ""⟩
        [("PAASTA_SERVICE", "web"), ("PAASTA_INSTANCE", "main")]).service = "web"
      ∧ (buildLogLine cluster ⟨1700000000, "nodeA", "abcdef012345", ""⟩
        [("PAASTA_SERVICE", "web"), ("PAASTA_INSTANCE", "main")]).instance_name = "main"
      ∧ (buildLogLine cluster ⟨1700000000, "nodeA", "abcdef012345", ""⟩
        [("PAASTA_SERVICE", "web"), ("PAASTA_INSTANCE", "main")]).mem_limit = "unknown"
      ∧ (buildLogLine cluster ⟨1700000000, "nodeA", "abcdef012345", ""⟩
        [("PAASTA_SERVICE", "web"), ("PAASTA_INSTANCE", "main")]).mesos_container_id
          = "mesos-null" :=
  ⟨by decide, fun _ => ⟨rfl, rfl, rfl, rfl⟩⟩

/-- C3: the claim says an absent or null config section yields an empty
map without an error; in the code `config.get(...)` runs before the
`if config is not None` guard, so an absent `process` (containerd path)
or `Config` (classic path) section raises `AttributeError` instead.  The
third conjunct checks the normal path, including a value containing
`=`. -/
theorem c3_absent_config_raises :
    get_container_env_as_dict true
      { process := none, Config := some ⟨some ["PAASTA_SERVICE=web"]⟩ }
      = .error .attributeError
    ∧ get_container_env_as_dict false
      { process := some ⟨some ["PAASTA_SERVICE=web"]⟩, Config := none }
      = .error .attributeError
    ∧ get_container_env_as_dict true
      { process := some ⟨some ["PAASTA_SERVICE=web", "X=a=b"]⟩, Config := none }
      = .ok [("PAASTA_SERVICE", "web"), ("X", "a=b")] :=
  ⟨rfl, rfl, rfl⟩

/-- C7 counterexample: a correctly formatted kubernetes systemd-cgroup
line whose `docker-<id>.scope` segment is exactly 12 hex characters
yields no occurrence at all: the pattern `docker-(\w{12})\w+\.scope`
demands at least 13 word characters in the segment. -/
theorem c7_counterexample :
    capture_oom_events_from_stdin
      ["1700000000 nodeA kernel: oom-kill:constraint=CONSTRAINT_MEMCG,task_memcg=/kubepods.slice/kubepods-burstable.slice/docker-abcdefabcdef.scope,task=app,pid=123"]
      = [] := by decide

/-- C7 (amended): for the kubernetes systemd-cgroup layout the id
segment must have at least 13 word characters (in practice the 64-char
full id); the line then yields exactly one occurrence whose container_id
is the first 12 characters of the segment. -/
theorem c7_amended_first12 :
    capture_oom_events_from_stdin
      ["1700000000 nodeA kernel: oom-kill:constraint=CONSTRAINT_MEMCG,task_memcg=/kubepods.slice/kubepods-burstable.slice/docker-0123456789abcdef0123456789abcdef0123456789abcdef0123456789abcdef.scope,task=app,pid=123"]
      = [⟨1700000000, "nodeA", "0123456789ab", ""⟩]
    ∧ "0123456789abcdef0123456789abcdef0123456789abcdef0123456789abcdef".data.take 12
      = "0123456789ab".data :=
  ⟨by decide, by decide⟩

/-- C8 counterexample: a pending process name captured from a line of
host `hostA` is attached to the next kill occurrence even though that
occurrence is for host `hostB`: the scanner keeps one global slot and
never compares hostnames. -/
theorem c8_counterexample :
    capture_oom_events_from_stdin
      ["100 hostA kernel: [123] procA invoked oom-killer: gfp_mask=0x14200ca",
       "200 hostB kernel: Task in /docker/0123456789abcdef killed as a result of limit"]
      = [⟨200, "hostB", "0123456789ab", "procA"⟩]
    ∧ ("procA" : String) ≠ "" ∧ ("hostA" : String) ≠ "hostB" :=
  ⟨by decide, by decide, by decide⟩

/-- C1 counterexample: a decode failure of the containerd spec payload is
raised outside the `try` block, so it escapes the iteration and
terminates the stream: with two occurrences and a failing decode the
second occurrence is never processed. -/
theorem c1_counterexample :
    mainLoop
      { containerd := true, cluster := "clusterA",
        containerd_get := fun _ => .ok 0,
        decode_spec := fun _ => .error .jsonDecodeError,
        docker_inspect := fun _ => .ok ⟨none, none⟩,
        clog_fail := fun _ => none, paasta_fail := fun _ => none,
        sfx_fail := fun _ _ _ => none }
      [⟨1, "h1", "cid1", ""⟩, ⟨2, "h2", "cid2", ""⟩]
      = ([], some .jsonDecodeError) := rfl

/-- C2 counterexample: a failure raised by the structured-event sink
prevents the operator log sink and the metrics sink from being invoked
for that occurrence: the three calls are sequential with no per-sink
exception isolation. -/
theorem c2_counterexample :
    dispatchSinks (some (.generic 0)) none none = ([Sink.clog], some (.generic 0))
    ∧ Sink.paasta ∉ (dispatchSinks (some (.generic 0)) none none).1
    ∧ Sink.sfx ∉ (dispatchSinks (some (.generic 0)) none none).1 :=
  ⟨rfl, by decide, by decide⟩

/-- C9: the log-line fields come from the environment map with defaults
`unknown`, `unknown`, `mesos-null`, `unknown`; each key is looked up
independently: an absent key yields its default and a present key yields
its first bound value, whatever the rest of the map holds. -/
theorem c9_env_defaults (cluster : String) (o : Occurrence)
    (ev : List (String × String)) :
    (("PAASTA_SERVICE" ∉ ev.map Prod.fst →
        (buildLogLine cluster o ev).service = "unknown")
      ∧ ∀ l1 v l2, ev = l1 ++ ("PAASTA_SERVICE", v) :: l2 →
          "PAASTA_SERVICE" ∉ l1.map Prod.fst →
          (buildLogLine cluster o ev).service = v)
    ∧ (("PAASTA_INSTANCE" ∉ ev.map Prod.fst →
        (buildLogLine cluster o ev).instance_name = "unknown")
      ∧ ∀ l1 v l2, ev = l1 ++ ("PAASTA_INSTANCE", v) :: l2 →
          "PAASTA_INSTANCE" ∉ l1.map Prod.fst →
          (buildLogLine cluster o ev).instance_name = v)
    ∧ (("MESOS_CONTAINER_NAME" ∉ ev.map Prod.fst →
        (buildLogLine cluster o ev).mesos_container_id = "mesos-null")
      ∧ ∀ l1 v l2, ev = l1 ++ ("MESOS_CONTAINER_NAME", v) :: l2 →
          "MESOS_CONTAINER_NAME" ∉ l1.map Prod.fst →
          (buildLogLine cluster o ev).mesos_container_id = v)
    ∧ (("PAASTA_RESOURCE_MEM" ∉ ev.map Prod.fst →
        (buildLogLine cluster o ev).mem_limit = "unknown")
      ∧ ∀ l1 v l2, ev = l1 ++ ("PAASTA_RESOURCE_MEM", v) :: l2 →
          "PAASTA_RESOURCE_MEM" ∉ l1.map Prod.fst →
          (buildLogLine cluster o ev).mem_limit = v) := by
  refine ⟨⟨fun h => ?_, fun l1 v l2 he h => ?_⟩, ⟨fun h => ?_, fun l1 v l2 he h => ?_⟩,
    ⟨fun h => ?_, fun l1 v l2 he h => ?_⟩, ⟨fun h => ?_, fun l1 v l2 he h => ?_⟩⟩ <;>
    first
      | exact pyDictGet_not_mem ev _ _ h
      | (subst he; exact pyDictGet_first l1 l2 _ v _ h)

/-- C9 witness: a concrete map missing `PAASTA_SERVICE` and
`MESOS_CONTAINER_NAME` but binding `PAASTA_INSTANCE` and
`PAASTA_RESOURCE_MEM`. -/
theorem c9_env_defaults_witness :
    (buildLogLine "cl" ⟨1, "h", "cid", ""⟩
      [("PAASTA_INSTANCE", "main"), ("PAASTA_RESOURCE_MEM", "2048")]).service = "unknown"
    ∧ (buildLogLine "cl" ⟨1, "h", "cid", ""⟩
      [("PAASTA_INSTANCE", "main"), ("PAASTA_RESOURCE_MEM", "2048")]).instance_name = "main"
    ∧ (buildLogLine "cl" ⟨1, "h", "cid", ""⟩
      [("PAASTA_INSTANCE", "main"), ("PAASTA_RESOURCE_MEM", "2048")]).mesos_container_id
        = "mesos-null"
    ∧ (buildLogLine "cl" ⟨1, "h", "cid", ""⟩
      [("PAASTA_INSTANCE", "main"), ("PAASTA_RESOURCE_MEM", "2048")]).mem_limit = "2048" := by
  refine ⟨(c9_env_defaults "cl" ⟨1, "h", "cid", ""⟩ _).1.1 (by decide),
    (c9_env_defaults "cl" ⟨1, "h", "cid", ""⟩ _).2.1.2 [] "main"
      [("PAASTA_RESOURCE_MEM", "2048")] rfl (by decide),
    (c9_env_defaults "cl" ⟨1, "h", "cid", ""⟩ _).2.2.1.1 (by decide),
    (c9_env_defaults "cl" ⟨1, "h", "cid", ""⟩ _).2.2.2.2 [("PAASTA_INSTANCE", "main")]
      "2048" [] rfl (by decide)⟩

/-! ### Helper lemmas on the scanner -/

theorem scanStep_length_le (pn l : String) : (scanStep pn l).1.length ≤ 1 := by
  unfold scanStep
  cases firstKillMatch event_detail_regexes l <;> simp

theorem nameAfter_no_match (pn l : String)
    (h : reSearchAnchored process_name_regex l = none) : nameAfter pn l = pn := by
  unfold nameAfter
  rw [h]

theorem nameAfter_match (pn l : String) (r : Caps)
    (h : reSearchAnchored process_name_regex l = some r) :
    nameAfter pn l = String.mk (reGroup r 1) := by
  unfold nameAfter
  rw [h]

theorem scanStep_attach (pn l : String) (occ : Occurrence) (s2 : String)
    (h : scanStep pn l = ([occ], s2)) :
    occ.process_name = nameAfter pn l ∧ s2 = "" := by
  unfold scanStep at h
  cases hm : firstKillMatch event_detail_regexes l <;> rw [hm] at h
  · simp at h
  · rw [Prod.mk.injEq, List.cons.injEq] at h
    obtain ⟨⟨h1, -⟩, h2⟩ := h
    subst h1
    exact ⟨rfl, h2.symm⟩

theorem scanFrom_all_empty_name (lines : List String)
    (h : ∀ l ∈ lines, reSearchAnchored process_name_regex l = none) :
    ∀ o ∈ scanFrom "" lines, o.process_name = "" := by
  induction lines with
  | nil => intro o ho; simp [scanFrom] at ho
  | cons l ls ih =>
    intro o ho
    simp only [scanFrom] at ho
    by_cases hl : l = ""
    · rw [if_pos hl] at ho
      simp at ho
    · rw [if_neg hl] at ho
      have hname : nameAfter "" l = "" := nameAfter_no_match "" l (h l (by simp))
      rw [List.mem_append] at ho
      rcases ho with ho | ho
      · unfold scanStep at ho
        cases hm : firstKillMatch event_detail_regexes l <;> rw [hm] at ho
        · simp at ho
        · simp only [List.mem_singleton] at ho
          subst ho
          exact hname
      · have hstate : (scanStep "" l).2 = "" := by
          unfold scanStep
          cases hm : firstKillMatch event_detail_regexes l <;> simp [hm, hname]
        rw [hstate] at ho
        exact ih (fun l' hl' => h l' (by simp [hl'])) o ho

theorem scanFrom_two_kills (s l1 l2 : String) (o1 o2 : Occurrence)
    (h2 : reSearchAnchored process_name_regex l2 = none)
    (h : scanFrom s [l1, l2] = [o1, o2]) :
    o2.process_name = "" := by
  by_cases hl1 : l1 = ""
  · simp [scanFrom, hl1] at h
  by_cases hl2 : l2 = ""
  · simp only [scanFrom, if_neg hl1, if_pos hl2, List.append_nil] at h
    have hle := scanStep_length_le s l1
    rw [h] at hle
    simp at hle
  simp only [scanFrom, if_neg hl1, if_neg hl2, List.append_nil] at h
  cases hm1 : firstKillMatch event_detail_regexes l1
  · simp only [scanStep, hm1, List.nil_append] at h
    cases hm2 : firstKillMatch event_detail_regexes l2 <;> rw [hm2] at h <;> simp at h
  · simp only [scanStep, hm1, List.cons_append, List.nil_append, List.cons.injEq] at h
    obtain ⟨-, h⟩ := h
    cases hm2 : firstKillMatch event_detail_regexes l2 <;>
      simp only [scanStep, hm2] at h
    · simp at h
    · rw [List.cons.injEq] at h
      obtain ⟨h, -⟩ := h
      subst h
      exact nameAfter_no_match "" l2 h2

/-- C4: the process-name state is one global slot: it is overwritten by
each process-name line, attached to the next kill occurrence and then
reset to empty; a kill line with no preceding process-name line yields an
occurrence with empty process name (never an error), and after two
consecutive kill lines with no intervening process-name line the second
occurrence's process name is empty. -/
theorem c4_process_name_slot :
    (∀ pn l r, reSearchAnchored process_name_regex l = some r →
      nameAfter pn l = String.mk (reGroup r 1))
    ∧ (∀ pn l occ s2, scanStep pn l = ([occ], s2) →
      occ.process_name = nameAfter pn l ∧ s2 = "")
    ∧ (∀ lines, (∀ l ∈ lines, reSearchAnchored process_name_regex l = none) →
      ∀ o ∈ capture_oom_events_from_stdin lines, o.process_name = "")
    ∧ (∀ s l1 l2 o1 o2, reSearchAnchored process_name_regex l2 = none →
      scanFrom s [l1, l2] = [o1, o2] → o2.process_name = "") :=
  ⟨nameAfter_match, scanStep_attach, fun lines h => scanFrom_all_empty_name lines h,
   scanFrom_two_kills⟩

/-- C4 witness: two consecutive kill lines with no process-name line at
all; both occurrences carry an empty process name. -/
theorem c4_witness :
    capture_oom_events_from_stdin
      ["300 nodeB kernel: Task in /docker/aaaabbbbccccdddd killed as a result of limit",
       "400 nodeB kernel: Task in /docker/aaaabbbbccccdddd killed as a result of limit"]
      = [⟨300, "nodeB", "aaaabbbbcccc", ""⟩, ⟨400, "nodeB", "aaaabbbbcccc", ""⟩]
    ∧ (⟨400, "nodeB", "aaaabbbbcccc", ""⟩ : Occurrence).process_name = "" :=
  ⟨by decide,
   c4_process_name_slot.2.2.2 ""
     "300 nodeB kernel: Task in /docker/aaaabbbbccccdddd killed as a result of limit"
     "400 nodeB kernel: Task in /docker/aaaabbbbccccdddd killed as a result of limit"
     ⟨300, "nodeB", "aaaabbbbcccc", ""⟩ ⟨400, "nodeB", "aaaabbbbcccc", ""⟩
     (by decide) (by decide)⟩

/-- C8 (amended): the pending process name is attached to the next kill
occurrence through the single global slot, with no comparison of
hostnames: whatever hosts the two lines name, a kill line consumes the
process name captured by the most recent process-name line. -/
theorem c8_amended_global_slot (pn l1 l2 : String) (r : Caps) (o : Occurrence)
    (h1 : reSearchAnchored process_name_regex l1 = some r)
    (h1k : firstKillMatch event_detail_regexes l1 = none)
    (h2 : reSearchAnchored process_name_regex l2 = none)
    (h : scanFrom pn [l1, l2] = [o]) :
    o.process_name = String.mk (reGroup r 1) := by
  by_cases hl1 : l1 = ""
  · simp [scanFrom, hl1] at h
  by_cases hl2 : l2 = ""
  · simp only [scanFrom, if_neg hl1, if_pos hl2, List.append_nil] at h
    simp [scanStep, h1k] at h
  simp only [scanFrom, if_neg hl1, if_neg hl2, List.append_nil] at h
  rw [scanStep] at h
  rw [h1k] at h
  simp only [List.nil_append] at h
  cases hm2 : firstKillMatch event_detail_regexes l2 <;>
    simp only [scanStep, hm2] at h
  · simp at h
  · rw [List.cons.injEq] at h
    obtain ⟨h, -⟩ := h
    subst h
    show nameAfter (nameAfter pn l1) l2 = _
    rw [nameAfter_no_match _ l2 h2, nameAfter_match pn l1 r h1]

/-- C8 (amended) witness: the process-name line is for `hostA`, the kill
line for `hostB`; the name is attached nevertheless. -/
theorem c8_amended_witness :
    (⟨200, "hostB", "abcabcabcabc", "procB"⟩ : Occurrence).process_name
      = String.mk (reGroup [(1, ['p', 'r', 'o', 'c', 'B'])] 1) :=
  c8_amended_global_slot ""
    "100 hostA kernel: [456] procB invoked oom-killer: gfp"
    "200 hostB kernel: Task in /docker/abcabcabcabc99 killed as a result of limit"
    [(1, ['p', 'r', 'o', 'c', 'B'])]
    ⟨200, "hostB", "abcabcabcabc", "procB"⟩
    (by decide) (by decide) (by decide) (by decide)

/-- C5: the five kill recognizers are tried in the fixed source order
with first match wins, so one line yields at most one occurrence even
when several recognizers match; when recognizer `i` matches and all
earlier recognizers do not, the occurrence is built from recognizer
`i`'s captures. -/
theorem c5_first_match_wins (pn syslog : String) :
    (scanStep pn syslog).1.length ≤ 1
    ∧ ∀ i r caps, event_detail_regexes.get? i = some r →
        reSearchAnchored r syslog = some caps →
        (∀ j r', j < i → event_detail_regexes.get? j = some r' →
          reSearchAnchored r' syslog = none) →
        scanStep pn syslog =
          ([⟨pyIntOfDigits (reGroup caps 1), String.mk (reGroup caps 2),
             String.mk (reGroup caps 3), nameAfter pn syslog⟩], "") := by
  refine ⟨scanStep_length_le pn syslog, fun i r caps hget hmatch hearlier => ?_⟩
  have hi : i < 5 := by
    rcases Nat.lt_or_ge i 5 with h' | h'
    · exact h'
    · rw [List.get?_eq_none.mpr (by simpa [event_detail_regexes] using h')] at hget
      cases hget
  have hfirst : firstKillMatch event_detail_regexes syslog = some caps := by
    interval_cases i
    · injection hget with hr
      subst hr
      simp [firstKillMatch, event_detail_regexes, hmatch]
    · injection hget with hr
      subst hr
      have e0 : reSearchAnchored oom_regex_docker syslog = none :=
        hearlier 0 _ (by omega) rfl
      simp [firstKillMatch, event_detail_regexes, e0, hmatch]
    · injection hget with hr
      subst hr
      have e0 : reSearchAnchored oom_regex_docker syslog = none :=
        hearlier 0 _ (by omega) rfl
      have e1 : reSearchAnchored oom_regex_kubernetes syslog = none :=
        hearlier 1 _ (by omega) rfl
      simp [firstKillMatch, event_detail_regexes, e0, e1, hmatch]
    · injection hget with hr
      subst hr
      have e0 : reSearchAnchored oom_regex_docker syslog = none :=
        hearlier 0 _ (by omega) rfl
      have e1 : reSearchAnchored oom_regex_kubernetes syslog = none :=
        hearlier 1 _ (by omega) rfl
      have e2 : reSearchAnchored oom_regex_kubernetes_structured syslog = none :=
        hearlier 2 _ (by omega) rfl
      simp [firstKillMatch, event_detail_regexes, e0, e1, e2, hmatch]
    · injection hget with hr
      subst hr
      have e0 : reSearchAnchored oom_regex_docker syslog = none :=
        hearlier 0 _ (by omega) rfl
      have e1 : reSearchAnchored oom_regex_kubernetes syslog = none :=
        hearlier 1 _ (by omega) rfl
      have e2 : reSearchAnchored oom_regex_kubernetes_structured syslog = none :=
        hearlier 2 _ (by omega) rfl
      have e3 : reSearchAnchored oom_regex_kubernetes_systemd_cgroup syslog = none :=
        hearlier 3 _ (by omega) rfl
      simp [firstKillMatch, event_detail_regexes, e0, e1, e2, e3, hmatch]
  simp [scanStep, hfirst]

/-- C5 witness: a line matching both the classic-engine recognizer and
the kubernetes recognizer yields the occurrence built from the
classic-engine captures (container id `bbbbbbbbbbbb`, not
`aaaaaaaaaaaa`), and only that one occurrence. -/
theorem c5_witness :
    reSearchAnchored oom_regex_kubernetes
      "1 h Task in /kubepods/podx/aaaaaaaaaaaa1 killed as a Task in /docker/bbbbbbbbbbbb2 killed as a"
      = some [(3, ['a', 'a', 'a', 'a', 'a', 'a', 'a', 'a', 'a', 'a', 'a', 'a']),
              (2, ['h']), (1, ['1'])]
    ∧ scanStep ""
      "1 h Task in /kubepods/podx/aaaaaaaaaaaa1 killed as a Task in /docker/bbbbbbbbbbbb2 killed as a"
      = ([⟨pyIntOfDigits (reGroup [(3, ['b', 'b', 'b', 'b', 'b', 'b', 'b', 'b', 'b', 'b', 'b', 'b']),
              (2, ['h']), (1, ['1'])] 1),
          String.mk (reGroup [(3, ['b', 'b', 'b', 'b', 'b', 'b', 'b', 'b', 'b', 'b', 'b', 'b']),
              (2, ['h']), (1, ['1'])] 2),
          String.mk (reGroup [(3, ['b', 'b', 'b', 'b', 'b', 'b', 'b', 'b', 'b', 'b', 'b', 'b']),
              (2, ['h']), (1, ['1'])] 3),
          nameAfter ""
            "1 h Task in /kubepods/podx/aaaaaaaaaaaa1 killed as a Task in /docker/bbbbbbbbbbbb2 killed as a"⟩],
         "") :=
  ⟨by decide,
   (c5_first_match_wins ""
      "1 h Task in /kubepods/podx/aaaaaaaaaaaa1 killed as a Task in /docker/bbbbbbbbbbbb2 killed as a").2
     0 oom_regex_docker
     [(3, ['b', 'b', 'b', 'b', 'b', 'b', 'b', 'b', 'b', 'b', 'b', 'b']), (2, ['h']), (1, ['1'])]
     rfl (by decide) (fun j r' hj _ => absurd hj (Nat.not_lt_zero j))⟩

/-- C1 (amended): a containerd RPC error or a classic-engine API error
during container lookup drops only the current occurrence and the loop
continues with the remaining occurrences; a decode failure of the
containerd spec payload, however, is raised outside the `try` block and
terminates the stream. -/
theorem c1_amended_lookup_errors (env : MainEnv) (o : Occurrence) (os : List Occurrence) :
    (env.containerd = true → env.containerd_get o.container_id = .error () →
      mainLoop env (o :: os) = (.skipped o :: (mainLoop env os).1, (mainLoop env os).2))
    ∧ (env.containerd = false → env.docker_inspect o.container_id = .error .apiError →
      mainLoop env (o :: os) = (.skipped o :: (mainLoop env os).1, (mainLoop env os).2))
    ∧ (∀ p e, env.containerd = true → env.containerd_get o.container_id = .ok p →
      env.decode_spec p = .error e → mainLoop env (o :: os) = ([], some e)) := by
  refine ⟨fun hc hg => ?_, fun hc hg => ?_, fun p e hc hg hd => ?_⟩
  · have hres : resolveInspect env o.container_id = .ok none := by
      simp [resolveInspect, hc, hg]
    simp [mainLoop, hres]
  · have hres : resolveInspect env o.container_id = .ok none := by
      simp [resolveInspect, hc, hg]
    simp [mainLoop, hres]
  · have hres : resolveInspect env o.container_id = .error e := by
      simp [resolveInspect, hc, hg, hd]
    simp [mainLoop, hres]

/-- C1 (amended) witness: three concrete runs of two occurrences each —
an RPC error and an API error skip only the first occurrence, while a
decode failure kills the whole stream. -/
theorem c1_amended_witness :
    mainLoop
      { containerd := true, cluster := "cl",
        containerd_get := fun _ => .error (),
        decode_spec := fun _ => .ok ⟨none, none⟩,
        docker_inspect := fun _ => .ok ⟨none, none⟩,
        clog_fail := fun _ => none, paasta_fail := fun _ => none,
        sfx_fail := fun _ _ _ => none }
      [⟨1, "h1", "cid1", ""⟩, ⟨2, "h2", "cid2", ""⟩]
      = (.skipped ⟨1, "h1", "cid1", ""⟩ ::
          (mainLoop
            { containerd := true, cluster := "cl",
              containerd_get := fun _ => .error (),
              decode_spec := fun _ => .ok ⟨none, none⟩,
              docker_inspect := fun _ => .ok ⟨none, none⟩,
              clog_fail := fun _ => none, paasta_fail := fun _ => none,
              sfx_fail := fun _ _ _ => none } [⟨2, "h2", "cid2", ""⟩]).1,
         (mainLoop
            { containerd := true, cluster := "cl",
              containerd_get := fun _ => .error (),
              decode_spec := fun _ => .ok ⟨none, none⟩,
              docker_inspect := fun _ => .ok ⟨none, none⟩,
              clog_fail := fun _ => none, paasta_fail := fun _ => none,
              sfx_fail := fun _ _ _ => none } [⟨2, "h2", "cid2", ""⟩]).2)
    ∧ mainLoop
      { containerd := false, cluster := "cl",
        containerd_get := fun _ => .ok 0,
        decode_spec := fun _ => .ok ⟨none, none⟩,
        docker_inspect := fun _ => .error .apiError,
        clog_fail := fun _ => none, paasta_fail := fun _ => none,
        sfx_fail := fun _ _ _ => none }
      [⟨1, "h1", "cid1", ""⟩, ⟨2, "h2", "cid2", ""⟩]
      = (.skipped ⟨1, "h1", "cid1", ""⟩ ::
          (mainLoop
            { containerd := false, cluster := "cl",
              containerd_get := fun _ => .ok 0,
              decode_spec := fun _ => .ok ⟨none, none⟩,
              docker_inspect := fun _ => .error .apiError,
              clog_fail := fun _ => none, paasta_fail := fun _ => none,
              sfx_fail := fun _ _ _ => none } [⟨2, "h2", "cid2", ""⟩]).1,
         (mainLoop
            { containerd := false, cluster := "cl",
              containerd_get := fun _ => .ok 0,
              decode_spec := fun _ => .ok ⟨none, none⟩,
              docker_inspect := fun _ => .error .apiError,
              clog_fail := fun _ => none, paasta_fail := fun _ => none,
              sfx_fail := fun _ _ _ => none } [⟨2, "h2", "cid2", ""⟩]).2)
    ∧ mainLoop
      { containerd := true, cluster := "cl",
        containerd_get := fun _ => .ok 0,
        decode_spec := fun _ => .error .unicodeDecodeError,
        docker_inspect := fun _ => .ok ⟨none, none⟩,
        clog_fail := fun _ => none, paasta_fail := fun _ => none,
        sfx_fail := fun _ _ _ => none }
      [⟨1, "h1", "cid1", ""⟩, ⟨2, "h2", "cid2", ""⟩]
      = ([], some .unicodeDecodeError) :=
  ⟨(c1_amended_lookup_errors _ ⟨1, "h1", "cid1", ""⟩ [⟨2, "h2", "cid2", ""⟩]).1 rfl rfl,
   (c1_amended_lookup_errors _ ⟨1, "h1", "cid1", ""⟩ [⟨2, "h2", "cid2", ""⟩]).2.1 rfl rfl,
   (c1_amended_lookup_errors _ ⟨1, "h1", "cid1", ""⟩ [⟨2, "h2", "cid2", ""⟩]).2.2
     0 .unicodeDecodeError rfl rfl rfl⟩

/-- C2 (amended): the sinks are invoked in the fixed order structured
event sink, operator log sink, metrics sink, but the failure domains are
not independent: each sink runs only if all earlier sinks returned, the
first raised sink exception is the loop's, and a failing structured-event
sink stops the whole stream with the remaining sinks never invoked. -/
theorem c2_amended_sequential (c p s : Option PyErr) :
    ((dispatchSinks c p s).1 =
      .clog :: (if c = none then .paasta :: (if p = none then [.sfx] else []) else [])
    ∧ (dispatchSinks c p s).2 = (if c = none then (if p = none then s else p) else c))
    ∧ (∀ env : MainEnv, ∀ o os ci ev e,
        resolveInspect env o.container_id = .ok (some ci) →
        get_container_env_as_dict env.containerd ci = .ok ev →
        env.clog_fail (buildLogLine env.cluster o ev) = some e →
        mainLoop env (o :: os) =
          ([.dispatched o (buildLogLine env.cluster o ev) [Sink.clog]], some e)) := by
  constructor
  · rcases c with _ | ec
    · rcases p with _ | ep
      · rcases s with _ | es <;> simp [dispatchSinks]
      · simp [dispatchSinks]
    · simp [dispatchSinks]
  · intro env o os ci ev e hres henv hclog
    simp [mainLoop, hres, henv, hclog, dispatchSinks]

/-- C2 (amended) witness: a concrete run where resolution succeeds and
the structured-event sink raises; the trace shows only that sink invoked
and the stream dead, with a second occurrence pending. -/
theorem c2_amended_witness :
    mainLoop
      { containerd := false, cluster := "cl",
        containerd_get := fun _ => .ok 0,
        decode_spec := fun _ => .ok ⟨none, none⟩,
        docker_inspect := fun _ => .ok ⟨none, some ⟨some ["PAASTA_SERVICE=web"]⟩⟩,
        clog_fail := fun _ => some (.generic 7), paasta_fail := fun _ => none,
        sfx_fail := fun _ _ _ => none }
      [⟨1, "h1", "cid1", ""⟩, ⟨2, "h2", "cid2", ""⟩]
      = ([.dispatched ⟨1, "h1", "cid1", ""⟩
            (buildLogLine "cl" ⟨1, "h1", "cid1", ""⟩ [("PAASTA_SERVICE", "web")])
            [Sink.clog]],
         some (.generic 7)) :=
  (c2_amended_sequential none none none).2 _ ⟨1, "h1", "cid1", ""⟩ [⟨2, "h2", "cid2", ""⟩]
    ⟨none, some ⟨some ["PAASTA_SERVICE=web"]⟩⟩ [("PAASTA_SERVICE", "web")]
    (.generic 7) rfl rfl rfl

/-! ### Soundness inversions for the matcher (used by C10) -/

theorem matchR_cat (r1 r2 : RE) (s : List Char) (caps : Caps)
    (k : List Char → Caps → Option Caps) :
    matchR (.cat r1 r2) s caps k
      = matchR r1 s caps (fun s' caps' => matchR r2 s' caps' k) := rfl

theorem matchR_grp (i : Nat) (r : RE) (s : List Char) (caps : Caps)
    (k : List Char → Caps → Option Caps) :
    matchR (.grp i r) s caps k
      = matchR r s caps
          (fun s' caps' => k s' ((i, s.take (s.length - s'.length)) :: caps')) := rfl

theorem matchR_chr_nil (p : Char → Bool) (caps : Caps)
    (k : List Char → Caps → Option Caps) :
    matchR (.chr p) [] caps k = none := rfl

theorem matchR_chr_cons (p : Char → Bool) (c : Char) (s : List Char) (caps : Caps)
    (k : List Char → Caps → Option Caps) :
    matchR (.chr p) (c :: s) caps k = if p c then k s caps else none := rfl

theorem starK_sound (p : Char → Bool) :
    ∀ (s : List Char) (caps : Caps) (k : List Char → Caps → Option Caps) (res : Caps),
      starK p s caps k = some res →
      ∃ u v, s = u ++ v ∧ (∀ c ∈ u, p c = true) ∧ k v caps = some res := by
  intro s
  induction s with
  | nil =>
    intro caps k res h
    exact ⟨[], [], rfl, by simp, h⟩
  | cons c s ih =>
    intro caps k res h
    rw [starK] at h
    by_cases hp : p c
    · rw [if_pos hp] at h
      cases hstar : starK p s caps k with
      | some res' =>
        rw [hstar] at h
        simp only [optOr] at h
        injection h with h
        subst h
        obtain ⟨u, v, hs, hu, hk⟩ := ih caps k res' hstar
        refine ⟨c :: u, v, by rw [hs, List.cons_append], ?_, hk⟩
        intro x hx
        rcases List.mem_cons.mp hx with rfl | hx
        · exact hp
        · exact hu x hx
      | none =>
        rw [hstar] at h
        simp only [optOr] at h
        exact ⟨[], c :: s, rfl, by simp, h⟩
    · rw [if_neg hp] at h
      exact ⟨[], c :: s, rfl, by simp, h⟩

theorem plusCh_sound (p : Char → Bool) (s : List Char) (caps : Caps)
    (k : List Char → Caps → Option Caps) (res : Caps)
    (h : matchR (.plusCh p) s caps k = some res) :
    ∃ u v, s = u ++ v ∧ u ≠ [] ∧ (∀ c ∈ u, p c = true) ∧ k v caps = some res := by
  cases s with
  | nil => simp [matchR] at h
  | cons c s' =>
    simp only [matchR] at h
    by_cases hp : p c
    · rw [if_pos hp] at h
      obtain ⟨u, v, hs, hu, hk⟩ := starK_sound p s' caps k res h
      refine ⟨c :: u, v, by rw [hs, List.cons_append], by simp, ?_, hk⟩
      intro x hx
      rcases List.mem_cons.mp hx with rfl | hx
      · exact hp
      · exact hu x hx
    · rw [if_neg hp] at h
      cases h

/-- A successful match of any of the five kill patterns decomposes the
line as digits, one whitespace, hostname characters, one whitespace,
rest. -/
theorem killHead_sound (rest : RE) (s : List Char) (caps : Caps)
    (k : List Char → Caps → Option Caps) (res : Caps)
    (h : matchR (killHead rest) s caps k = some res) :
    ∃ ds w1 hl w2 t, s = ds ++ w1 :: (hl ++ w2 :: t)
      ∧ ds ≠ [] ∧ (∀ c ∈ ds, isDigitPy c = true) ∧ isSpacePy w1 = true
      ∧ hl ≠ [] ∧ (∀ c ∈ hl, isHostPy c = true) ∧ isSpacePy w2 = true := by
  unfold killHead at h
  rw [matchR_cat, matchR_grp] at h
  obtain ⟨ds, v1, rfl, hds, hdsd, hk1⟩ := plusCh_sound _ _ _ _ _ h
  rw [matchR_cat] at hk1
  cases v1 with
  | nil => rw [matchR_chr_nil] at hk1; cases hk1
  | cons w1 v2 =>
    rw [matchR_chr_cons] at hk1
    by_cases hw1 : isSpacePy w1
    · rw [if_pos hw1] at hk1
      rw [matchR_cat, matchR_grp] at hk1
      obtain ⟨hl, v3, hv2, hhl, hhlh, hk2⟩ := plusCh_sound _ _ _ _ _ hk1
      rw [matchR_cat] at hk2
      cases v3 with
      | nil => rw [matchR_chr_nil] at hk2; cases hk2
      | cons w2 t =>
        rw [matchR_chr_cons] at hk2
        by_cases hw2 : isSpacePy w2
        · exact ⟨ds, w1, hl, w2, t, by rw [hv2], hds, hdsd, hw1, hhl, hhlh, hw2⟩
        · rw [if_neg hw2] at hk2
          cases hk2
    · rw [if_neg hw1] at hk1
      cases hk1

/-! ### Character-class facts and field decomposition (used by C10) -/

theorem isSpacePy_le32 {c : Char} (h : isSpacePy c = true) : c.toNat ≤ 32 := by
  simp only [isSpacePy, Bool.or_eq_true, beq_iff_eq] at h
  rcases h with ((((h | h) | h) | h) | h) | h <;> subst h <;> decide

theorem isDigitPy_not_space {c : Char} (h : isDigitPy c = true) : isSpacePy c = false := by
  cases hs : isSpacePy c
  · rfl
  · exfalso
    have h32 := isSpacePy_le32 hs
    simp only [isDigitPy, Bool.and_eq_true, decide_eq_true_eq] at h
    omega

theorem isHostPy_not_space {c : Char} (h : isHostPy c = true) : isSpacePy c = false := by
  cases hs : isSpacePy c
  · rfl
  · exfalso
    have h32 := isSpacePy_le32 hs
    simp only [isHostPy, isAlphaPy, isDigitPy, Bool.or_eq_true, Bool.and_eq_true,
      decide_eq_true_eq, beq_iff_eq] at h
    rcases h with ((h | h) | h) | h
    · omega
    · omega
    · omega
    · subst h
      exact absurd h32 (by decide)

theorem dropWhile_nonspace_append (w : Char) (r : List Char) :
    ∀ ds : List Char, (∀ c ∈ ds, isSpacePy c = false) → isSpacePy w = true →
      List.dropWhile (fun c => !isSpacePy c) (ds ++ w :: r) = w :: r := by
  intro ds
  induction ds with
  | nil =>
    intro _ hw
    simp [List.dropWhile_cons, hw]
  | cons d ds ih =>
    intro h hw
    have hd : isSpacePy d = false := h d (by simp)
    simp only [List.cons_append, List.dropWhile_cons, hd, Bool.not_false, if_true]
    exact ih (fun c hc => h c (by simp [hc])) hw

theorem takeWhile_nonspace_append (w : Char) (t : List Char) :
    ∀ hl : List Char, (∀ c ∈ hl, isSpacePy c = false) → isSpacePy w = true →
      List.takeWhile (fun c => !isSpacePy c) (hl ++ w :: t) = hl := by
  intro hl
  induction hl with
  | nil =>
    intro _ hw
    simp [List.takeWhile_cons, hw]
  | cons d ds ih =>
    intro h hw
    have hd : isSpacePy d = false := h d (by simp)
    simp only [List.cons_append, List.takeWhile_cons, hd, Bool.not_false, if_true]
    rw [ih (fun c hc => h c (by simp [hc])) hw]

theorem secondField_decomp (ds hl t : List Char) (w1 w2 : Char)
    (hds : ds ≠ []) (hdsns : ∀ c ∈ ds, isSpacePy c = false)
    (hw1 : isSpacePy w1 = true)
    (hhl : hl ≠ []) (hhlns : ∀ c ∈ hl, isSpacePy c = false)
    (hw2 : isSpacePy w2 = true) :
    secondField (ds ++ w1 :: (hl ++ w2 :: t)) = hl := by
  unfold secondField
  obtain ⟨d, ds', rfl⟩ := List.exists_cons_of_ne_nil hds
  have h1 : List.dropWhile isSpacePy ((d :: ds') ++ w1 :: (hl ++ w2 :: t))
      = (d :: ds') ++ w1 :: (hl ++ w2 :: t) := by
    simp [List.dropWhile_cons, hdsns d (by simp)]
  rw [h1]
  rw [dropWhile_nonspace_append w1 (hl ++ w2 :: t) (d :: ds') hdsns hw1]
  obtain ⟨h0, hl', rfl⟩ := List.exists_cons_of_ne_nil hhl
  have h2 : List.dropWhile isSpacePy (w1 :: ((h0 :: hl') ++ w2 :: t))
      = (h0 :: hl') ++ w2 :: t := by
    simp [List.dropWhile_cons, hw1, hhlns h0 (by simp)]
  rw [h2]
  exact takeWhile_nonspace_append w2 t (h0 :: hl') hhlns hw2

theorem firstKillMatch_none (s : String) :
    ∀ rs : List RE, (∀ r ∈ rs, reSearchAnchored r s = none) → firstKillMatch rs s = none := by
  intro rs
  induction rs with
  | nil => intro _; rfl
  | cons r rs ih =>
    intro h
    rw [firstKillMatch, h r (by simp)]
    exact ih (fun r' hr' => h r' (by simp [hr']))

/-- C10: every kill recognizer restricts the hostname field to
`[a-zA-Z0-9-]`: a line whose second whitespace-separated field contains
any other character matches no kill recognizer and yields no
occurrence. -/
theorem c10_hostname_charset (line : String) (c : Char)
    (hc : c ∈ secondField line.data) (hbad : isHostPy c = false) :
    (∀ r ∈ event_detail_regexes, reSearchAnchored r line = none)
    ∧ ∀ pn, (scanStep pn line).1 = [] := by
  have hkill : ∀ rest : RE, reSearchAnchored (killHead rest) line = none := by
    intro rest
    cases hm : reSearchAnchored (killHead rest) line with
    | none => rfl
    | some caps =>
      exfalso
      unfold reSearchAnchored at hm
      obtain ⟨ds, w1, hl, w2, t, hsplit, hds, hdsd, hw1, hhl, hhlh, hw2⟩ :=
        killHead_sound rest line.data [] _ caps hm
      have hsf : secondField line.data = hl := by
        rw [hsplit]
        exact secondField_decomp ds hl t w1 w2 hds
          (fun x hx => isDigitPy_not_space (hdsd x hx)) hw1
          hhl (fun x hx => isHostPy_not_space (hhlh x hx)) hw2
      rw [hsf] at hc
      rw [hhlh c hc] at hbad
      cases hbad
  have hall : ∀ r ∈ event_detail_regexes, reSearchAnchored r line = none := by
    intro r hr
    simp only [event_detail_regexes, List.mem_cons, List.not_mem_nil, or_false] at hr
    rcases hr with rfl | rfl | rfl | rfl | rfl
    · exact hkill _
    · exact hkill _
    · exact hkill _
    · exact hkill _
    · exact hkill _
  refine ⟨hall, fun pn => ?_⟩
  have hfm := firstKillMatch_none line event_detail_regexes hall
  simp [scanStep, hfm]

/-- C10 witness: a fully qualified hostname with dots on an otherwise
well-formed classic-engine kill line: no recognizer matches and no
occurrence is produced. -/
theorem c10_witness :
    (scanStep ""
      "200 host.example.com kernel: Task in /docker/0123456789abcdef killed as a result of limit").1
      = []
    ∧ reSearchAnchored oom_regex_docker
      "200 host.example.com kernel: Task in /docker/0123456789abcdef killed as a result of limit"
      = none :=
  ⟨(c10_hostname_charset _ '.' (by decide) (by decide)).2 "",
   (c10_hostname_charset _ '.' (by decide) (by decide)).1 oom_regex_docker
     (by simp [event_detail_regexes])⟩
